import Mathlib

/-!
Verification of the JSEP (JavaScript Session Establishment Protocol)
negotiation engine of this repository.

The repository ships the engine's unit tests
(media/webrtc/signaling/gtest/jsep_session_unittest.cpp); the engine
itself (JsepSessionImpl, JsepTransceiver, JsepCodecDescription, ...) is
not part of the analyzed sources.  The definitions below are therefore
modelled from the specification (spec.md) of that engine, and kept
consistent with the concrete behaviors the in-repo unit tests pin down.
-/

namespace Jsep

/-- Media type of an m-section / transceiver (spec section 3). -/
inductive MediaType
  | audio
  | video
  | application
deriving DecidableEq

/-- SDP direction attribute values. -/
inductive Direction
  | sendrecv
  | sendonly
  | recvonly
  | inactive
deriving DecidableEq

/-- Values of the a=setup attribute (DTLS role negotiation, spec 4.3). -/
inductive SetupRole
  | actpass
  | active
  | passive
  | holdconn
deriving DecidableEq

/-- Negotiated DTLS role of one side. -/
inductive DtlsRole
  | client
  | server
deriving DecidableEq

/-- Caller-visible error taxonomy (spec section 7). -/
inductive JsepError
  | InvalidStateError
  | InvalidModificationError
  | InvalidAccessError
  | OperationError
deriving DecidableEq

/-- Signaling states of the negotiation state machine (spec 4.1). -/
inductive SigState
  | stable
  | haveLocalOffer
  | haveRemoteOffer
deriving DecidableEq

/-- Description type argument of SetLocalDescription / SetRemoteDescription. -/
inductive SdpType
  | offer
  | answer
  | rollback
deriving DecidableEq

/-- Modelled from the spec: the external SDP document model (spec section 6)
reduced to the attributes the negotiation engine inspects.  One m-section:
media type, port, direction, a=setup, a=extmap list (id, URI), format list
and a=rtpmap list, plus whether an a=mid is present. -/
structure MSection where
  mediaType : MediaType
  port : Nat
  direction : Direction
  setup : Option SetupRole
  extmaps : List (Nat × String)
  formats : List String
  rtpmaps : List (String × String)
  hasMid : Bool
deriving DecidableEq

/-- An SDP document: its ordered list of m-sections. -/
structure Sdp where
  msections : List MSection
deriving DecidableEq

/-- Number of attributes of an m-section in this model: a=mid (when present),
the direction attribute (always serialized), one a=rtpmap per entry, one
a=extmap per entry, and a=setup when present. -/
def MSection.attrCount (m : MSection) : Nat :=
  (if m.hasMid then 1 else 0) + 1 + m.rtpmaps.length + m.extmaps.length +
    (if m.setup.isSome then 1 else 0)

/-- A disabled (rejected) m-section: port 0 and direction a=inactive. -/
def MSection.Disabled (m : MSection) : Prop :=
  m.port = 0 ∧ m.direction = Direction.inactive

instance (m : MSection) : Decidable m.Disabled := by
  unfold MSection.Disabled; infer_instance

/-- The single reserved format kept in a disabled m-section
(payload type, codec name), per media type. -/
def reservedFormat : MediaType → String × String
  | MediaType.audio => ("0", "PCMU")
  | MediaType.video => ("120", "VP8")
  | MediaType.application => ("0", "rejected")

/-- Modelled from the spec: the disabled m-section the engine emits for a
stopped transceiver — port 0, a=inactive, and only a mid, the direction and
a single reserved-format codec line. -/
def disabledMSection (mt : MediaType) : MSection :=
  { mediaType := mt
    port := 0
    direction := Direction.inactive
    setup := none
    extmaps := []
    formats := [(reservedFormat mt).1]
    rtpmaps := [reservedFormat mt]
    hasMid := true }

/-- One ICE/DTLS transport unit (spec section 3). -/
structure Transport where
  transportId : Nat
  components : Nat
  dtlsRole : Option DtlsRole
deriving DecidableEq

/-- A send or receive media stream description (spec section 3), reduced to
the parts the claims need. -/
structure Track where
  streamIds : List String
  active : Bool
deriving DecidableEq

/-- Modelled from the spec: JsepTransceiver — a send track, a receive track
and a transport bound to an optional SDP level, with the lifecycle and
bookkeeping flags of spec section 3. -/
structure Transceiver where
  tid : Nat
  mediaType : MediaType
  sendTrack : Track
  recvTrack : Track
  jsDirection : Direction
  level : Option Nat
  associated : Bool
  bundleLevel : Option Nat
  stopping : Bool
  stopped : Bool
  removed : Bool
  addTrackMagic : Bool
  onlyExistsBecauseOfSetRemote : Bool
  transport : Transport
deriving DecidableEq

/-- Modelled from the spec: JsepSessionImpl state — signaling state, the
ordered transceiver list, the four description slots, the last descriptions
produced by CreateOffer/CreateAnswer (used for the InvalidModificationError
content check), the pre-offer transceiver snapshot used by rollback, the
session-wide negotiated extension-id table, and a counter for fresh
transceiver ids. -/
structure Session where
  state : SigState
  transceivers : List Transceiver
  localCurrent : Option Sdp
  localPending : Option Sdp
  remoteCurrent : Option Sdp
  remotePending : Option Sdp
  lastCreatedOffer : Option Sdp
  lastCreatedAnswer : Option Sdp
  oldTransceivers : Option (List Transceiver)
  negotiatedExtmap : List (Nat × String)
  nextTid : Nat
deriving DecidableEq

/-! ## Validation of a remote description (spec 4.3, 4.5) -/

/-- Modelled from the spec: per-m-section a=setup validation.  holdconn is
always rejected; an offer must carry a=setup; an answer must not carry
actpass. -/
def validateSetup (t : SdpType) (m : MSection) : Option JsepError :=
  match m.setup with
  | some SetupRole.holdconn => some JsepError.InvalidAccessError
  | some SetupRole.actpass =>
    if t = SdpType.answer then some JsepError.InvalidAccessError else none
  | some _ => none
  | none => if t = SdpType.offer then some JsepError.InvalidAccessError else none

/-- First a=setup validation error of a whole description, if any. -/
def validateSetupSdp (t : SdpType) (sdp : Sdp) : Option JsepError :=
  sdp.msections.findSome? (validateSetup t)

/-- All (id, URI) extmap entries of a description, in order. -/
def sdpExtmaps (sdp : Sdp) : List (Nat × String) :=
  sdp.msections.foldr (fun m acc => m.extmaps ++ acc) []

/-- Modelled from the spec: an incoming extmap entry violates the negotiated
binding table when it reuses a negotiated id for a different extension name
("attempted to remap RTP extension id"). -/
def extmapViolates (neg : List (Nat × String)) (e : Nat × String) : Bool :=
  neg.any fun b => decide (b.1 = e.1) && !(decide (b.2 = e.2))

/-- Check every extmap entry of a description against the negotiated
binding table. -/
def checkExtmaps (neg : List (Nat × String)) (sdp : Sdp) : Option JsepError :=
  if sdp.msections.any (fun m => m.extmaps.any (extmapViolates neg)) then
    some JsepError.InvalidAccessError
  else none

/-- Modelled from the spec: an answer may not move an extension the offer
carried to a different id within the same round ("Answer changed id for
extmap attribute"). -/
def answerChangedId (offerSdp : Sdp) (answerSdp : Sdp) : Bool :=
  (sdpExtmaps answerSdp).any fun e =>
    (sdpExtmaps offerSdp).any fun o => decide (o.2 = e.2) && !(decide (o.1 = e.1))

/-- Merge the bindings of a successfully negotiated description into the
session-wide extension-id table; existing bindings are kept, entries that
clash on id or name with an existing binding are not re-added. -/
def mergeExtmaps (neg : List (Nat × String)) (sdp : Sdp) : List (Nat × String) :=
  neg ++ (sdpExtmaps sdp).filter
    (fun e => !(neg.any fun b => decide (b.1 = e.1) || decide (b.2 = e.2)))

/-! ## Transceiver matching when applying a remote offer (spec 4.3) -/

/-- Does some live transceiver already sit at this level? -/
def hasLevelMatch (ts : List Transceiver) (lev : Nat) : Prop :=
  ∃ t ∈ ts, t.level = some lev ∧ t.removed = false

instance (ts : List Transceiver) (lev : Nat) : Decidable (hasLevelMatch ts lev) := by
  unfold hasLevelMatch; infer_instance

/-- Mark the transceivers at this level associated. -/
def assocLevel (lev : Nat) (ts : List Transceiver) : List Transceiver :=
  ts.map fun t => if t.level = some lev then { t with associated := true } else t

/-- Assign the level to the first unleveled, live transceiver of the right
media type that carries addTrack magic (matching priority 3 of spec 4.3).
Returns none when no such transceiver exists. -/
def assignMagic (lev : Nat) (mt : MediaType) : List Transceiver → Option (List Transceiver)
  | [] => none
  | t :: rest =>
    if t.level = none ∧ t.removed = false ∧ t.stopped = false ∧
        t.addTrackMagic = true ∧ t.mediaType = mt then
      some ({ t with level := some lev, associated := true } :: rest)
    else
      (assignMagic lev mt rest).map (t :: ·)

/-- The transceiver synthesized for an unmatched m-section of a remote offer
(onlyExistsBecauseOfSetRemote, matching priority 4 of spec 4.3). -/
def synthTransceiver (tid lev : Nat) (m : MSection) : Transceiver :=
  { tid := tid
    mediaType := m.mediaType
    sendTrack := { streamIds := [], active := false }
    recvTrack := { streamIds := [], active := true }
    jsDirection := Direction.recvonly
    level := some lev
    associated := true
    bundleLevel := none
    stopping := false
    stopped := false
    removed := false
    addTrackMagic := false
    onlyExistsBecauseOfSetRemote := true
    transport := { transportId := tid, components := 1, dtlsRole := none } }

/-- Process one m-section of a remote offer: existing transceiver at that
level, else addTrack-magic match, else synthesize. -/
def applyRemoteOfferLevel (lev : Nat) (m : MSection) (acc : List Transceiver × Nat) :
    List Transceiver × Nat :=
  if hasLevelMatch acc.1 lev then (assocLevel lev acc.1, acc.2)
  else
    match assignMagic lev m.mediaType acc.1 with
    | some ts2 => (ts2, acc.2)
    | none => (acc.1 ++ [synthTransceiver acc.2 lev m], acc.2 + 1)

/-- Apply the transceiver-matching pass of SetRemoteDescription(offer) to
every m-section, in level order. -/
def applyRemoteOfferTransceivers (ts : List Transceiver) (ntid : Nat) (sdp : Sdp) :
    List Transceiver × Nat :=
  sdp.msections.enum.foldl (fun acc p => applyRemoteOfferLevel p.1 p.2 acc) (ts, ntid)

/-- The m-section of a description at a given level, if any. -/
def msectionAt (sdp : Sdp) (lev : Nat) : Option MSection :=
  sdp.msections[lev]?

/-- A transceiver whose m-section the applied remote offer negotiated
disabled becomes stopped and its transport loses its components
(finalization of a stop, spec 4.6). -/
def applyOfferDisable (sdp : Sdp) (t : Transceiver) : Transceiver :=
  match t.level with
  | none => t
  | some lev =>
    match msectionAt sdp lev with
    | none => t
    | some m =>
      if m.Disabled then
        { t with stopped := true
                 transport := { t.transport with components := 0 } }
      else t

/-! ## Rollback (spec 4.7) -/

/-- Rollback treatment of a transceiver that did not exist before the
rolled-back description was applied: one synthesized purely by applying the
remote offer and untouched by the application is marked removed (never
physically deleted); anything else — e.g. a transceiver AddTrack touched in
the interim — is preserved unassociated. -/
def rollbackNew (t : Transceiver) : Transceiver :=
  if t.onlyExistsBecauseOfSetRemote = true ∧ t.addTrackMagic = false then
    { t with removed := true, stopped := true, level := none, associated := false }
  else
    { t with level := none, associated := false }

/-- Rollback of one transceiver: when a pre-offer counterpart exists in the
snapshot, restore its level, association, bundle level and transport —
without touching the track content; otherwise apply the new-transceiver
rule. -/
def restoreFromOld (old : List Transceiver) (t : Transceiver) : Transceiver :=
  match old.find? (fun o => o.tid = t.tid) with
  | some o =>
    { t with level := o.level, associated := o.associated,
             bundleLevel := o.bundleLevel, transport := o.transport }
  | none => rollbackNew t

/-- Roll the whole transceiver list back against the pre-offer snapshot. -/
def rollbackTransceivers (old : List Transceiver) (cur : List Transceiver) :
    List Transceiver :=
  cur.map (restoreFromOld old)

/-- SetLocalDescription(rollback): legal only from have-local-offer. -/
def setLocalRollback (s : Session) : Session × Option JsepError :=
  if s.state = SigState.haveLocalOffer then
    ({ s with state := SigState.stable
              transceivers :=
                rollbackTransceivers (s.oldTransceivers.getD s.transceivers)
                  s.transceivers
              localPending := none
              oldTransceivers := none }, none)
  else (s, some JsepError.InvalidStateError)

/-- SetRemoteDescription(rollback): legal only from have-remote-offer. -/
def setRemoteRollback (s : Session) : Session × Option JsepError :=
  if s.state = SigState.haveRemoteOffer then
    ({ s with state := SigState.stable
              transceivers :=
                rollbackTransceivers (s.oldTransceivers.getD s.transceivers)
                  s.transceivers
              remotePending := none
              oldTransceivers := none }, none)
  else (s, some JsepError.InvalidStateError)

/-! ## DTLS role derivation (spec 4.3) -/

/-- DTLS role of the offerer, derived from the a=setup value of the remote
answer; a missing a=setup on an answer defaults to active, making the
offerer the DTLS server. -/
def offererDtlsRole (setup : Option SetupRole) : Option DtlsRole :=
  match setup with
  | some SetupRole.active => some DtlsRole.server
  | some SetupRole.passive => some DtlsRole.client
  | none => some DtlsRole.server
  | some _ => none

/-- DTLS role of the answerer, derived from the a=setup value of its own
answer (active when omitted). -/
def answererDtlsRole (setup : Option SetupRole) : Option DtlsRole :=
  match setup with
  | some SetupRole.passive => some DtlsRole.server
  | _ => some DtlsRole.client

/-! ## Applying descriptions (spec 4.2, 4.3) -/

/-- Finalization of one transceiver when the offerer applies the remote
answer: a negotiated-disabled m-section stops the transceiver and disables
its transport; otherwise only the DTLS role is recorded — lifecycle flags,
components and track activity are untouched. -/
def finalizeAnswerTransceiver (sdp : Sdp) (t : Transceiver) : Transceiver :=
  match t.level with
  | none => t
  | some lev =>
    match msectionAt sdp lev with
    | none => t
    | some m =>
      if m.Disabled then
        { t with stopped := true
                 transport := { t.transport with components := 0 } }
      else
        { t with transport := { t.transport with dtlsRole := offererDtlsRole m.setup } }

/-- Commit SetRemoteDescription(answer): back to stable, slots updated, the
extension-id table extended with the newly negotiated bindings, and every
transceiver finalized against the answer. -/
def applyRemoteAnswerFinalize (sdp : Sdp) (s : Session) : Session :=
  { s with state := SigState.stable
           remoteCurrent := some sdp
           localCurrent := s.localPending
           remotePending := none
           localPending := none
           oldTransceivers := none
           negotiatedExtmap := mergeExtmaps s.negotiatedExtmap sdp
           transceivers := s.transceivers.map (finalizeAnswerTransceiver sdp) }

/-- Commit SetRemoteDescription(offer): snapshot the transceivers for
rollback, run transceiver matching, finalize stops for disabled m-sections,
and move to have-remote-offer. -/
def setRemoteOfferApply (sdp : Sdp) (s : Session) : Session :=
  { s with state := SigState.haveRemoteOffer
           remotePending := some sdp
           oldTransceivers := some s.transceivers
           transceivers :=
             ((applyRemoteOfferTransceivers s.transceivers s.nextTid sdp).1).map
               (applyOfferDisable sdp)
           nextTid := (applyRemoteOfferTransceivers s.transceivers s.nextTid sdp).2 }

/-- Modelled from the spec: JsepSessionImpl::SetRemoteDescription.  State
check first (InvalidStateError), then content validation (a=setup rules,
extension-id permanence, answer id stability) — every failure leaves the
session untouched. -/
def setRemoteDescription (t : SdpType) (sdp : Sdp) (s : Session) :
    Session × Option JsepError :=
  match t with
  | SdpType.rollback => setRemoteRollback s
  | SdpType.offer =>
    if s.state = SigState.stable then
      match validateSetupSdp SdpType.offer sdp with
      | some e => (s, some e)
      | none =>
        match checkExtmaps s.negotiatedExtmap sdp with
        | some e => (s, some e)
        | none => (setRemoteOfferApply sdp s, none)
    else (s, some JsepError.InvalidStateError)
  | SdpType.answer =>
    if s.state = SigState.haveLocalOffer then
      match validateSetupSdp SdpType.answer sdp with
      | some e => (s, some e)
      | none =>
        match checkExtmaps s.negotiatedExtmap sdp with
        | some e => (s, some e)
        | none =>
          if answerChangedId (s.localPending.getD { msections := [] }) sdp then
            (s, some JsepError.InvalidAccessError)
          else (applyRemoteAnswerFinalize sdp s, none)
    else (s, some JsepError.InvalidStateError)

/-- Level assignment pass of SetLocalDescription(offer): in transceiver
order, a live transceiver keeps its level or receives the next free one and
becomes associated; stopped or removed transceivers are left alone. -/
def applyLocalOfferTs : List Transceiver → Nat → List Transceiver
  | [], _ => []
  | t :: rest, nextLev =>
    if t.stopped = true ∨ t.removed = true then
      t :: applyLocalOfferTs rest nextLev
    else
      match t.level with
      | some l => { t with associated := true } :: applyLocalOfferTs rest (max nextLev (l + 1))
      | none =>
        { t with level := some nextLev, associated := true } ::
          applyLocalOfferTs rest (nextLev + 1)

/-- Commit SetLocalDescription(offer): snapshot for rollback, assign levels,
move to have-local-offer. -/
def applyLocalOffer (sdp : Sdp) (s : Session) : Session :=
  { s with state := SigState.haveLocalOffer
           localPending := some sdp
           oldTransceivers := some s.transceivers
           transceivers := applyLocalOfferTs s.transceivers 0 }

/-- Finalization of one transceiver when the answerer applies its own local
answer: disabled m-sections finalize a stop, otherwise the answerer's DTLS
role is recorded from its own a=setup. -/
def finalizeLocalAnswerTransceiver (sdp : Sdp) (t : Transceiver) : Transceiver :=
  match t.level with
  | none => t
  | some lev =>
    match msectionAt sdp lev with
    | none => t
    | some m =>
      if m.Disabled then
        { t with stopped := true
                 transport := { t.transport with components := 0 } }
      else
        { t with transport := { t.transport with dtlsRole := answererDtlsRole m.setup } }

/-- Commit SetLocalDescription(answer): back to stable, slots updated, the
extension-id table extended, transceivers finalized. -/
def applyLocalAnswerFinalize (sdp : Sdp) (s : Session) : Session :=
  { s with state := SigState.stable
           localCurrent := some sdp
           remoteCurrent := s.remotePending
           remotePending := none
           localPending := none
           oldTransceivers := none
           negotiatedExtmap := mergeExtmaps s.negotiatedExtmap sdp
           transceivers := s.transceivers.map (finalizeLocalAnswerTransceiver sdp) }

/-- Modelled from the spec: JsepSessionImpl::SetLocalDescription.  The
content of a local offer/answer must be exactly what CreateOffer /
CreateAnswer last produced (InvalidModificationError otherwise, checked
first, as the unit tests pin down); then the state machine is enforced
(InvalidStateError).  Every failure leaves the session untouched. -/
def setLocalDescription (t : SdpType) (sdp : Sdp) (s : Session) :
    Session × Option JsepError :=
  match t with
  | SdpType.rollback => setLocalRollback s
  | SdpType.offer =>
    if s.lastCreatedOffer = some sdp then
      if s.state = SigState.stable ∨ s.state = SigState.haveLocalOffer then
        (applyLocalOffer sdp s, none)
      else (s, some JsepError.InvalidStateError)
    else (s, some JsepError.InvalidModificationError)
  | SdpType.answer =>
    if s.lastCreatedAnswer = some sdp then
      if s.state = SigState.haveRemoteOffer then
        (applyLocalAnswerFinalize sdp s, none)
      else (s, some JsepError.InvalidStateError)
    else (s, some JsepError.InvalidModificationError)

/-! ## Offer / answer creation (spec 4.2, 4.3) -/

/-- The default codec line this model emits for an active m-section of a
given media type. -/
def defaultRtpmap : MediaType → String × String
  | MediaType.audio => ("109", "opus")
  | MediaType.video => ("120", "VP8")
  | MediaType.application => ("5000", "webrtc-datachannel")

/-- The m-section CreateOffer emits for one transceiver: a stopping or
stopped transceiver yields the disabled m-section; otherwise a live
m-section with a=setup:actpass and the session's negotiated extension
ids. -/
def msectionForTransceiver (negExt : List (Nat × String)) (t : Transceiver) : MSection :=
  if t.stopping = true ∨ t.stopped = true then
    disabledMSection t.mediaType
  else
    { mediaType := t.mediaType
      port := 9
      direction := t.jsDirection
      setup := some SetupRole.actpass
      extmaps := negExt
      formats := [(defaultRtpmap t.mediaType).1]
      rtpmaps := [defaultRtpmap t.mediaType]
      hasMid := true }

/-- CreateOffer: one m-section per mapped, live transceiver, in level
order. -/
def createOfferSdp (s : Session) : Sdp :=
  { msections :=
      ((s.transceivers.filter (fun t => !t.removed && t.level.isSome)).map
        (msectionForTransceiver s.negotiatedExtmap)) }

/-- The a=setup value an answer states, given what the peer's offer
stated: active against actpass, passive against active. -/
def answerSetupFor : Option SetupRole → SetupRole
  | some SetupRole.active => SetupRole.passive
  | _ => SetupRole.active

/-- The m-section CreateAnswer emits opposite one offered m-section: a
disabled offer m-section is mirrored disabled; otherwise the direction is
mirrored and a=setup is answered per the peer's value. -/
def answerMSection (m : MSection) : MSection :=
  if m.Disabled then disabledMSection m.mediaType
  else { m with setup := some (answerSetupFor m.setup), hasMid := true }

/-- CreateAnswer mirrors the remote offer's m-section list exactly. -/
def createAnswerSdp (remoteOffer : Sdp) : Sdp :=
  { msections := remoteOffer.msections.map answerMSection }

/-- Modelled from the spec: CheckNegotiationNeeded — in stable state, a live
transceiver that is stopping but not yet stopped, or live but not yet
mapped to an m-section, makes renegotiation necessary. -/
def checkNegotiationNeeded (s : Session) : Bool :=
  decide (s.state = SigState.stable) &&
    s.transceivers.any fun t =>
      !t.removed &&
        ((t.stopping && !t.stopped) || (!t.stopped && t.level.isNone))

/-! ## State-machine legality table (spec 4.1) -/

/-- Legal source states of SetRemoteDescription. -/
def legalRemote : SigState → SdpType → Prop
  | SigState.stable, SdpType.offer => True
  | SigState.haveLocalOffer, SdpType.answer => True
  | SigState.haveRemoteOffer, SdpType.rollback => True
  | _, _ => False

instance (st : SigState) (t : SdpType) : Decidable (legalRemote st t) := by
  cases st <;> cases t <;> unfold legalRemote <;> infer_instance

/-- Legal source states of SetLocalDescription. -/
def legalLocal : SigState → SdpType → Prop
  | SigState.stable, SdpType.offer => True
  | SigState.haveLocalOffer, SdpType.offer => True
  | SigState.haveRemoteOffer, SdpType.answer => True
  | SigState.haveLocalOffer, SdpType.rollback => True
  | _, _ => False

instance (st : SigState) (t : SdpType) : Decidable (legalLocal st t) := by
  cases st <;> cases t <;> unfold legalLocal <;> infer_instance

/-! ## Payload-type negotiation (spec 4.4) -/

/-- One entry of the codec preference table: codec name, its configured
default payload type, and whether it is enabled. -/
structure CodecConfig where
  name : String
  defaultPt : Nat
  enabled : Bool
deriving DecidableEq

/-- Previously negotiated payload type of a codec on this track, if any. -/
def negLookup (neg : List (String × Nat)) (n : String) : Option Nat :=
  (neg.find? (fun b => b.1 = n)).map (·.2)

/-- A fresh payload type: strictly above every number already claimed in
this m-section this round (and above the static range). -/
def freshPt (used : List Nat) : Nat :=
  (used.foldr max 95) + 1

/-- The working payload type of one codec: its previously negotiated
number when one exists, else its configured default — replaced by a fresh
number when it is already claimed in this m-section this round. -/
def workingPt (neg : List (String × Nat)) (c : CodecConfig) (used : List Nat) : Nat :=
  let base := (negLookup neg c.name).getD c.defaultPt
  if base ∈ used then freshPt used else base

/-- Modelled from the spec: working payload-type assignment of one
m-section.  Each enabled codec keeps its previously negotiated number when
one exists, else its configured default; a number already claimed by
another codec in this round forces a fresh, non-colliding number. -/
def assignPts (neg : List (String × Nat)) : List CodecConfig → List Nat → List (String × Nat)
  | [], _ => []
  | c :: rest, used =>
    if c.enabled = false then assignPts neg rest used
    else (c.name, workingPt neg c used) :: assignPts neg rest (workingPt neg c used :: used)

/-! ## Payload-type asymmetry (spec 4.4): send and receive codec lists are
tracked independently. -/

/-- The answerer negotiating against a remote offer adopts the offerer's
numbers for the codecs it supports — for both its send and its receive
list (the answerer never answers asymmetrically). -/
def negotiateAnswererCodecs (own : List CodecConfig) (offered : List (String × Nat)) :
    List (String × Nat) × List (String × Nat) :=
  let l := offered.filter (fun o => own.any fun c => c.enabled && decide (c.name = o.1))
  (l, l)

/-- The offerer applying a remote answer: the number used when sending a
codec is the one the peer advertised for it; the number used when
receiving stays this side's own chosen number.  The two lists are tracked
independently and never merged. -/
def applyAnswerToOffererCodecs (ownRecv : List (String × Nat))
    (answered : List (String × Nat)) :
    List (String × Nat) × List (String × Nat) :=
  (ownRecv.filterMap (fun r => (negLookup answered r.1).map (fun q => (r.1, q))),
   ownRecv)

/-- Modelled from the spec and the unit tests: applying the peer's answer
updates the working codec configuration (the engine's prototype codecs) —
a codec the answer names adopts the peer's number (TestAnswerPTAsymmetry),
one the answer does not name keeps its current number
(TestOfferPTAsymmetry: the answerer "should not change when it
reoffers"). -/
def updateCodec (answered : List (String × Nat)) (c : CodecConfig) : CodecConfig :=
  match negLookup answered c.name with
  | some q => { c with defaultPt := q }
  | none => c

/-- The whole codec configuration after applying the peer's answer. -/
def updateCodecConfigFromAnswer (own : List CodecConfig)
    (answered : List (String × Nat)) : List CodecConfig :=
  own.map (updateCodec answered)

/-- A reoffer advertises each enabled codec of the working configuration
under that configuration's number. -/
def reofferPtsFromConfig (cfg : List CodecConfig) : List (String × Nat) :=
  (cfg.filter (fun c => c.enabled)).map fun c => (c.name, c.defaultPt)

/-! ## H.264 profile-level-id arithmetic (spec 4.4) -/

/-- Clear the constraint_set3_flag bit (0x10) of a profile-iop byte. -/
def clearCs3 (iop : Nat) : Nat := iop - (iop / 16 % 2) * 16

/-- Set the constraint_set3_flag bit (0x10) of a profile-iop byte. -/
def setCs3 (iop : Nat) : Nat := clearCs3 iop + 16

/-- The comparison key of H.264 level 1b: strictly between the keys of
level 1.0 (10 * 16) and level 1.1 (11 * 16). -/
def saneLevel1b : Nat := 168

/-- Modelled from the spec: JsepVideoCodecDescription::GetSaneH264Level —
map a profile-level-id onto a totally ordered comparison key in which
level 1b (constraint_set3_flag with level_idc 11 for the baseline, main
and extended profiles, or level_idc 9 elsewhere) sorts strictly between
level 1.0 and level 1.1. -/
def GetSaneH264Level (plid : Nat) : Nat :=
  if plid % 256 = 9 then saneLevel1b
  else
    if (plid / 65536 % 256 = 66 ∨ plid / 65536 % 256 = 77 ∨ plid / 65536 % 256 = 88) ∧
        plid / 256 % 256 / 16 % 2 = 1 ∧ plid % 256 = 11 then saneLevel1b
    else plid % 256 * 16

/-- Modelled from the spec: JsepVideoCodecDescription::SetSaneH264Level —
write a comparison key back into a profile-level-id, using
constraint_set3_flag for level 1b on the profiles that support it and
level_idc 9 elsewhere. -/
def SetSaneH264Level (level : Nat) (plid : Nat) : Nat :=
  if level = saneLevel1b then
    if plid / 65536 % 256 = 66 ∨ plid / 65536 % 256 = 77 ∨ plid / 65536 % 256 = 88 then
      plid / 65536 * 65536 + setCs3 (plid / 256 % 256) * 256 + 11
    else plid / 256 * 256 + 9
  else
    if plid / 65536 % 256 = 66 ∨ plid / 65536 % 256 = 77 ∨ plid / 65536 % 256 = 88 then
      plid / 65536 * 65536 + clearCs3 (plid / 256 % 256) * 256 + level / 16
    else plid / 256 * 256 + level / 16

/-- Modelled from the spec and the unit tests: the (send, recv)
profile-level-ids after H.264 level negotiation.  When level asymmetry is
allowed, the send direction runs at the remote's level and the receive
direction at this side's own; when either side disallows asymmetry, both
directions run at min(local, remote) under the sane-level order, so the
used levels match exactly. -/
def h264NegotiateSendRecv (asymmetryAllowed : Bool) (localPlid remotePlid : Nat) :
    Nat × Nat :=
  if asymmetryAllowed then
    (SetSaneH264Level (GetSaneH264Level remotePlid) localPlid, localPlid)
  else
    let m := min (GetSaneH264Level localPlid) (GetSaneH264Level remotePlid)
    (SetSaneH264Level m localPlid, SetSaneH264Level m localPlid)

/-! ## Bundle transport lifecycle (spec 4.6) -/

/-- Disable a transport: it keeps its id but loses all components. -/
def disableTransport (tp : Transport) : Transport :=
  { tp with components := 0 }

/-- Modelled from the spec: when the bundle-tag transceiver is stopped, the
shared bundle transport is handed to the next surviving bundled
transceiver, which becomes the new tag; every surviving bundled
transceiver shares that one transport and points its bundle level at the
new tag, while each stopped transceiver's transport is disabled
(components 0) and it loses its bundle level. -/
def rebundle (bundleTransport : Transport) (ts : List Transceiver) : List Transceiver :=
  match ts.find? (fun t => !t.stopped && !t.removed) with
  | none =>
    ts.map fun t =>
      { t with transport := disableTransport t.transport, bundleLevel := none }
  | some newTag =>
    ts.map fun t =>
      if t.stopped then
        { t with transport := disableTransport t.transport, bundleLevel := none }
      else
        { t with transport := bundleTransport, bundleLevel := newTag.level }

/-! ## Helper lemmas -/

/-- Membership in the flattened extmap list of a description. -/
theorem mem_sdpExtmaps {sdp : Sdp} {e : Nat × String} :
    e ∈ sdpExtmaps sdp ↔ ∃ m ∈ sdp.msections, e ∈ m.extmaps := by
  unfold sdpExtmaps
  rcases sdp with ⟨ms⟩
  induction ms with
  | nil => simp
  | cons m rest ih => simp [List.foldr_cons, List.mem_append, ih]

/-- validateSetup only ever produces InvalidAccessError. -/
theorem validateSetup_eq_none_or (t : SdpType) (m : MSection) :
    validateSetup t m = none ∨ validateSetup t m = some JsepError.InvalidAccessError := by
  unfold validateSetup
  rcases m.setup with _ | r
  · by_cases h : t = SdpType.offer <;> simp [h]
  · cases r with
    | actpass => by_cases h : t = SdpType.answer <;> simp [h]
    | active => simp
    | passive => simp
    | holdconn => simp

/-- A successful SetRemoteDescription of an offer or answer passed the
extension-id permanence check. -/
theorem checkExtmaps_of_success {s : Session} {t : SdpType} {sdp : Sdp}
    (ht : t ≠ SdpType.rollback)
    (h : (setRemoteDescription t sdp s).2 = none) :
    checkExtmaps s.negotiatedExtmap sdp = none := by
  cases t with
  | rollback => exact absurd rfl ht
  | offer =>
    unfold setRemoteDescription at h
    by_cases hst : s.state = SigState.stable
    · simp only [hst, if_pos rfl] at h
      rcases hv : validateSetupSdp SdpType.offer sdp with _ | e
      · rw [hv] at h
        rcases hc : checkExtmaps s.negotiatedExtmap sdp with _ | e2
        · rfl
        · rw [hc] at h; simp at h
      · rw [hv] at h; simp at h
    · simp [hst] at h
  | answer =>
    unfold setRemoteDescription at h
    by_cases hst : s.state = SigState.haveLocalOffer
    · simp only [hst, if_pos rfl] at h
      rcases hv : validateSetupSdp SdpType.answer sdp with _ | e
      · rw [hv] at h
        rcases hc : checkExtmaps s.negotiatedExtmap sdp with _ | e2
        · rfl
        · rw [hc] at h; simp at h
      · rw [hv] at h; simp at h
    · simp [hst] at h

/-! ## Claim theorems -/

/-- Claim C1: every mutating call (SetLocalDescription /
SetRemoteDescription) invoked outside its legal source state of the
negotiation state machine fails — SetRemoteDescription with
InvalidStateError, SetLocalDescription with InvalidStateError or, for a
content mismatch, InvalidModificationError — and leaves the session
(state, transceiver list, description slots) unchanged. -/
theorem c1_state_machine_closure (s : Session) (t : SdpType) (sdp : Sdp) :
    (¬ legalRemote s.state t →
      setRemoteDescription t sdp s = (s, some JsepError.InvalidStateError)) ∧
    (¬ legalLocal s.state t →
      (setLocalDescription t sdp s).1 = s ∧
      ((setLocalDescription t sdp s).2 = some JsepError.InvalidStateError ∨
        (setLocalDescription t sdp s).2 = some JsepError.InvalidModificationError)) := by
  constructor
  · intro hns
    cases t with
    | offer =>
      rcases hst : s.state with _ | _ | _
      · rw [hst] at hns; exact absurd trivial hns
      · simp [setRemoteDescription, hst]
      · simp [setRemoteDescription, hst]
    | answer =>
      rcases hst : s.state with _ | _ | _
      · simp [setRemoteDescription, hst]
      · rw [hst] at hns; exact absurd trivial hns
      · simp [setRemoteDescription, hst]
    | rollback =>
      rcases hst : s.state with _ | _ | _
      · simp [setRemoteDescription, setRemoteRollback, hst]
      · simp [setRemoteDescription, setRemoteRollback, hst]
      · rw [hst] at hns; exact absurd trivial hns
  · intro hnl
    cases t with
    | offer =>
      rcases hst : s.state with _ | _ | _
      · rw [hst] at hnl; exact absurd trivial hnl
      · rw [hst] at hnl; exact absurd trivial hnl
      · by_cases hc : s.lastCreatedOffer = some sdp
        · simp [setLocalDescription, hst, hc]
        · simp [setLocalDescription, hc]
    | answer =>
      rcases hst : s.state with _ | _ | _
      · by_cases hc : s.lastCreatedAnswer = some sdp
        · simp [setLocalDescription, hst, hc]
        · simp [setLocalDescription, hc]
      · by_cases hc : s.lastCreatedAnswer = some sdp
        · simp [setLocalDescription, hst, hc]
        · simp [setLocalDescription, hc]
      · rw [hst] at hnl; exact absurd trivial hnl
    | rollback =>
      rcases hst : s.state with _ | _ | _
      · simp [setLocalDescription, setLocalRollback, hst]
      · rw [hst] at hnl; exact absurd trivial hnl
      · simp [setLocalDescription, setLocalRollback, hst]

/-! ### Concrete inputs used by the witnesses -/

/-- A live audio transceiver used in concrete scenarios. -/
def wTransceiver : Transceiver :=
  { tid := 0
    mediaType := MediaType.audio
    sendTrack := { streamIds := ["stream0"], active := true }
    recvTrack := { streamIds := [], active := true }
    jsDirection := Direction.sendrecv
    level := none
    associated := false
    bundleLevel := none
    stopping := false
    stopped := false
    removed := false
    addTrackMagic := true
    onlyExistsBecauseOfSetRemote := false
    transport := { transportId := 0, components := 1, dtlsRole := none } }

/-- A stable session holding one audio transceiver. -/
def wSession : Session :=
  { state := SigState.stable
    transceivers := [wTransceiver]
    localCurrent := none
    localPending := none
    remoteCurrent := none
    remotePending := none
    lastCreatedOffer := none
    lastCreatedAnswer := none
    oldTransceivers := none
    negotiatedExtmap := []
    nextTid := 1 }

/-- A well-formed one-m-section audio offer. -/
def wOfferSdp : Sdp :=
  { msections :=
      [{ mediaType := MediaType.audio
         port := 9
         direction := Direction.sendrecv
         setup := some SetupRole.actpass
         extmaps := [(3, "urn:ietf:params:rtp-hdrext:sdes:mid")]
         formats := ["109"]
         rtpmaps := [("109", "opus")]
         hasMid := true }] }

/-- Witness for C1: applying a remote answer in stable state (as in
SetRemoteAnswerInStable) fails with InvalidStateError and changes nothing,
and a local rollback in stable state fails likewise. -/
theorem c1_witness :
    (setRemoteDescription SdpType.answer wOfferSdp wSession =
      (wSession, some JsepError.InvalidStateError)) ∧
    ((setLocalDescription SdpType.rollback wOfferSdp wSession).1 = wSession ∧
      ((setLocalDescription SdpType.rollback wOfferSdp wSession).2 =
          some JsepError.InvalidStateError ∨
        (setLocalDescription SdpType.rollback wOfferSdp wSession).2 =
          some JsepError.InvalidModificationError)) :=
  ⟨(c1_state_machine_closure wSession SdpType.answer wOfferSdp).1 (by decide),
   (c1_state_machine_closure wSession SdpType.rollback wOfferSdp).2 (by decide)⟩

/-! ### C2: extension-id stability -/

/-- A stable session that has negotiated the sdes:mid extension at id 3. -/
def c2Session : Session :=
  { wSession with negotiatedExtmap := [(3, "urn:ietf:params:rtp-hdrext:sdes:mid")] }

/-- An offer that moves the negotiated sdes:mid extension to the fresh,
never-bound id 14 (the munged offer of TestExtmapChangeId). -/
def c2FreshIdSdp : Sdp :=
  { msections :=
      [{ mediaType := MediaType.audio
         port := 9
         direction := Direction.sendrecv
         setup := some SetupRole.actpass
         extmaps := [(14, "urn:ietf:params:rtp-hdrext:sdes:mid")]
         formats := ["109"]
         rtpmaps := [("109", "opus")]
         hasMid := true }] }

/-- Counterexample to C2 as stated: after sdes:mid was negotiated at id 3,
an offer that references that name under the fresh id 14 is accepted, not
rejected with InvalidAccessError (the engine only forbids reusing a
negotiated id for a different name — TestExtmapChangeId accepts exactly
this munged offer). -/
theorem c2_counterexample :
    (3, "urn:ietf:params:rtp-hdrext:sdes:mid") ∈ c2Session.negotiatedExtmap ∧
    (14, "urn:ietf:params:rtp-hdrext:sdes:mid") ∈ sdpExtmaps c2FreshIdSdp ∧
    (setRemoteDescription SdpType.offer c2FreshIdSdp c2Session).2 = none := by
  refine ⟨by decide, by decide, ?_⟩
  rfl

/-- Claim C2 (amended): once an id has been bound to an extension name in a
successfully negotiated round, every accepted later offer or answer that
uses that id binds it to that same name, and an SDP that rebinds the id to
a different name is rejected with InvalidAccessError leaving the session
unchanged; before any negotiation has completed (empty binding table), and
whenever only never-bound ids are used, the extmap check accepts. -/
theorem c2_extmap_id_stability :
    (∀ (s : Session) (t : SdpType) (sdp : Sdp) (i : Nat) (nm : String),
      t ≠ SdpType.rollback →
      (i, nm) ∈ s.negotiatedExtmap →
      (setRemoteDescription t sdp s).2 = none →
      ∀ e ∈ sdpExtmaps sdp, e.1 = i → e.2 = nm) ∧
    (∀ (s : Session) (sdp : Sdp) (m : MSection) (e b : Nat × String),
      s.state = SigState.stable →
      validateSetupSdp SdpType.offer sdp = none →
      m ∈ sdp.msections → e ∈ m.extmaps → b ∈ s.negotiatedExtmap →
      b.1 = e.1 → b.2 ≠ e.2 →
      setRemoteDescription SdpType.offer sdp s =
        (s, some JsepError.InvalidAccessError)) ∧
    (∀ sdp : Sdp, checkExtmaps [] sdp = none) ∧
    (∀ (neg : List (Nat × String)) (sdp : Sdp),
      (∀ e ∈ sdpExtmaps sdp, ∀ b ∈ neg, b.1 ≠ e.1) →
      checkExtmaps neg sdp = none) := by
  refine ⟨?_, ?_, ?_, ?_⟩
  · intro s t sdp i nm ht hneg hsucc e he hei
    have hchk : checkExtmaps s.negotiatedExtmap sdp = none :=
      checkExtmaps_of_success ht hsucc
    by_contra hne
    rcases mem_sdpExtmaps.mp he with ⟨m, hm, hem⟩
    have hviol : extmapViolates s.negotiatedExtmap e = true := by
      unfold extmapViolates
      rw [List.any_eq_true]
      refine ⟨(i, nm), hneg, ?_⟩
      simp only [Bool.and_eq_true, decide_eq_true_eq, Bool.not_eq_true',
        decide_eq_false_iff_not]
      exact ⟨hei.symm, fun h => hne h.symm⟩
    have hany : sdp.msections.any (fun m => m.extmaps.any
        (extmapViolates s.negotiatedExtmap)) = true := by
      rw [List.any_eq_true]
      exact ⟨m, hm, List.any_eq_true.mpr ⟨e, hem, hviol⟩⟩
    simp [checkExtmaps, hany] at hchk
  · intro s sdp m e b hst hsetup hm hem hb hbe hbne
    have hviol : extmapViolates s.negotiatedExtmap e = true := by
      unfold extmapViolates
      rw [List.any_eq_true]
      exact ⟨b, hb, by simp [hbe, hbne]⟩
    have hany : sdp.msections.any (fun m => m.extmaps.any
        (extmapViolates s.negotiatedExtmap)) = true := by
      rw [List.any_eq_true]
      exact ⟨m, hm, List.any_eq_true.mpr ⟨e, hem, hviol⟩⟩
    have hchk : checkExtmaps s.negotiatedExtmap sdp =
        some JsepError.InvalidAccessError := by
      simp [checkExtmaps, hany]
    simp [setRemoteDescription, hst, hsetup, hchk]
  · intro sdp
    simp [checkExtmaps, extmapViolates]
  · intro neg sdp h
    have hany : sdp.msections.any (fun m => m.extmaps.any (extmapViolates neg)) = false := by
      rw [List.any_eq_false]
      intro m hm
      rw [Bool.not_eq_true, List.any_eq_false]
      intro e hem
      rw [Bool.not_eq_true]
      unfold extmapViolates
      rw [List.any_eq_false]
      intro b hb
      have := h e (mem_sdpExtmaps.mpr ⟨m, hm, hem⟩) b hb
      simp [this]
    simp [checkExtmaps, hany]

/-- An offer that reuses the negotiated id 3 for a different extension name
(the munged offer of TestExtmapReuse). -/
def c2RemapSdp : Sdp :=
  { msections :=
      [{ mediaType := MediaType.audio
         port := 9
         direction := Direction.sendrecv
         setup := some SetupRole.actpass
         extmaps := [(3, "foo")]
         formats := ["109"]
         rtpmaps := [("109", "opus")]
         hasMid := true }] }

/-- Witness for the amended C2: with sdes:mid negotiated at id 3, an
accepted offer using id 3 binds it to sdes:mid; reusing id 3 for the name
foo is rejected with InvalidAccessError and the session is unchanged; an
empty binding table and fresh-id-only offers are accepted. -/
theorem c2_witness :
    (∀ e ∈ sdpExtmaps wOfferSdp, e.1 = 3 →
      e.2 = "urn:ietf:params:rtp-hdrext:sdes:mid") ∧
    (setRemoteDescription SdpType.offer c2RemapSdp c2Session =
      (c2Session, some JsepError.InvalidAccessError)) ∧
    checkExtmaps [] c2RemapSdp = none ∧
    checkExtmaps c2Session.negotiatedExtmap c2FreshIdSdp = none := by
  refine ⟨?_, ?_, ?_, ?_⟩
  · exact c2_extmap_id_stability.1 c2Session SdpType.offer wOfferSdp 3
      "urn:ietf:params:rtp-hdrext:sdes:mid" (by decide) (by decide) (by rfl)
  · exact c2_extmap_id_stability.2.1 c2Session c2RemapSdp
      (c2RemapSdp.msections.get ⟨0, by decide⟩) (3, "foo")
      (3, "urn:ietf:params:rtp-hdrext:sdes:mid")
      (by decide) (by decide) (by decide) (by decide) (by decide) (by decide)
      (by decide)
  · exact c2_extmap_id_stability.2.2.1 c2RemapSdp
  · exact c2_extmap_id_stability.2.2.2 c2Session.negotiatedExtmap c2FreshIdSdp
      (by decide)

/-! ### C3: payload-type stability and clash resolution -/

theorem le_foldr_max (x : Nat) (l : List Nat) (h : x ∈ l) : x ≤ l.foldr max 95 := by
  induction l with
  | nil => cases h
  | cons a l ih =>
    rcases List.mem_cons.mp h with rfl | h2
    · exact Nat.le_max_left _ _
    · exact le_trans (ih h2) (Nat.le_max_right _ _)

/-- A fresh payload type never collides with a number already claimed. -/
theorem freshPt_not_mem (used : List Nat) : freshPt used ∉ used := by
  intro h
  have := le_foldr_max _ _ h
  unfold freshPt at this
  omega

/-- The working payload type never collides with a number already claimed. -/
theorem workingPt_not_mem (neg : List (String × Nat)) (c : CodecConfig)
    (used : List Nat) : workingPt neg c used ∉ used := by
  unfold workingPt
  by_cases hb : ((negLookup neg c.name).getD c.defaultPt) ∈ used
  · simpa [hb] using freshPt_not_mem used
  · simp [hb]

/-- The numbers assigned in one m-section in one round are pairwise
distinct and disjoint from the numbers already claimed. -/
theorem assignPts_nodup_disjoint (neg : List (String × Nat)) :
    ∀ (codecs : List CodecConfig) (used : List Nat),
      ((assignPts neg codecs used).map Prod.snd).Nodup ∧
      ∀ p ∈ (assignPts neg codecs used).map Prod.snd, p ∉ used := by
  intro codecs
  induction codecs with
  | nil => intro used; simp [assignPts]
  | cons c rest ih =>
    intro used
    by_cases hen : c.enabled = false
    · simpa [assignPts, hen] using ih used
    · have hmain := ih (workingPt neg c used :: used)
      have hpt := workingPt_not_mem neg c used
      simp only [assignPts]
      rw [if_neg hen]
      simp only [List.map_cons, List.nodup_cons, List.mem_cons]
      refine ⟨⟨?_, hmain.1⟩, ?_⟩
      · intro hmem
        exact (hmain.2 _ hmem) (List.mem_cons_self _ _)
      · rintro p (rfl | hp)
        · exact hpt
        · intro hpu
          exact (hmain.2 p hp) (List.mem_cons_of_mem _ hpu)

/-- A codec with a previously negotiated number keeps it whenever that
number is not claimed by the surrounding round. -/
theorem assignPts_sticky (neg : List (String × Nat)) :
    ∀ (codecs : List CodecConfig) (used : List Nat) (c : CodecConfig) (p : Nat),
      (codecs.map CodecConfig.name).Nodup →
      c ∈ codecs → c.enabled = true → negLookup neg c.name = some p → p ∉ used →
      (∀ e ∈ assignPts neg codecs used, e.1 ≠ c.name → e.2 ≠ p) →
      (c.name, p) ∈ assignPts neg codecs used := by
  intro codecs
  induction codecs with
  | nil => intro used c p _ hc; cases hc
  | cons c0 rest ih =>
    intro used c p hnodup hc hen hneg hpu hother
    have hnodup2 : (rest.map CodecConfig.name).Nodup :=
      (List.nodup_cons.mp hnodup).2
    rcases List.mem_cons.mp hc with rfl | hcr
    · -- the codec at the head of the list
      have hen2 : ¬ c.enabled = false := by simp [hen]
      have hwp : workingPt neg c used = p := by
        unfold workingPt
        rw [hneg]
        simp [hpu]
      simp only [assignPts]
      rw [if_neg hen2, hwp]
      exact List.mem_cons_self _ _
    · -- the codec is in the tail
      have hname : c0.name ≠ c.name := by
        intro hnm
        exact (List.nodup_cons.mp hnodup).1
          (hnm ▸ List.mem_map_of_mem CodecConfig.name hcr)
      by_cases hen0 : c0.enabled = false
      · simp only [assignPts]
        rw [if_pos hen0]
        refine ih used c p hnodup2 hcr hen hneg hpu ?_
        intro e he
        exact hother e (by simp [assignPts, hen0, he])
      · simp only [assignPts]
        rw [if_neg hen0]
        have hhead : (c0.name, workingPt neg c0 used) ∈ assignPts neg (c0 :: rest) used := by
          simp [assignPts, hen0]
        have hpt0 : workingPt neg c0 used ≠ p :=
          hother (c0.name, workingPt neg c0 used) hhead hname
        have hpu2 : p ∉ workingPt neg c0 used :: used := by
          intro hmem
          rcases List.mem_cons.mp hmem with h1 | h2
          · exact hpt0 h1.symm
          · exact hpu h2
        refine List.mem_cons_of_mem _ ?_
        refine ih (workingPt neg c0 used :: used) c p hnodup2 hcr hen hneg hpu2 ?_
        intro e he
        exact hother e (by simp [assignPts, hen0]; exact Or.inr he)

/-- Claim C3: once a codec's payload type has been negotiated for a track,
a later round keeps it unchanged unless another codec already claims that
number in the round (stickiness), and every forced change yields a fresh
number: the numbers assigned in one m-section in one round are pairwise
distinct and never collide with a number already bound there. -/
theorem c3_payload_type_stability (neg : List (String × Nat))
    (codecs : List CodecConfig) (used : List Nat) :
    (((assignPts neg codecs used).map Prod.snd).Nodup ∧
      ∀ p ∈ (assignPts neg codecs used).map Prod.snd, p ∉ used) ∧
    (∀ (c : CodecConfig) (p : Nat),
      (codecs.map CodecConfig.name).Nodup →
      c ∈ codecs → c.enabled = true → negLookup neg c.name = some p → p ∉ used →
      (∀ e ∈ assignPts neg codecs used, e.1 ≠ c.name → e.2 ≠ p) →
      (c.name, p) ∈ assignPts neg codecs used) :=
  ⟨assignPts_nodup_disjoint neg codecs used,
   fun c p h1 h2 h3 h4 h5 h6 => assignPts_sticky neg codecs used c p h1 h2 h3 h4 h5 h6⟩

/-- The negotiated table and codec configuration of the PayloadTypeClash
scenario: G722 was negotiated at 109 and the reofferer also prefers 109
for opus. -/
def c3Neg : List (String × Nat) := [("G722", 109)]

def c3Codecs : List CodecConfig :=
  [{ name := "G722", defaultPt := 109, enabled := true },
   { name := "opus", defaultPt := 109, enabled := true }]

/-- Witness for C3 at the PayloadTypeClash scenario: G722 keeps its
negotiated 109, opus is forced off 109 onto a fresh number, and the round
assigns pairwise distinct numbers. -/
theorem c3_witness :
    ((((assignPts c3Neg c3Codecs []).map Prod.snd).Nodup ∧
       ∀ p ∈ (assignPts c3Neg c3Codecs []).map Prod.snd, p ∉ ([] : List Nat)) ∧
      ("G722", 109) ∈ assignPts c3Neg c3Codecs []) ∧
    assignPts c3Neg c3Codecs [] = [("G722", 109), ("opus", 110)] := by
  refine ⟨⟨(c3_payload_type_stability c3Neg c3Codecs []).1, ?_⟩, by decide⟩
  exact (c3_payload_type_stability c3Neg c3Codecs []).2
    { name := "G722", defaultPt := 109, enabled := true } 109
    (by decide) (by decide) (by decide) (by decide) (by decide) (by decide)

/-! ### C4: rollback semantics -/

/-- The level-assignment pass of a local offer does not change transceiver
identities. -/
theorem applyLocalOfferTs_tids : ∀ (ts : List Transceiver) (n : Nat),
    (applyLocalOfferTs ts n).map Transceiver.tid = ts.map Transceiver.tid := by
  intro ts
  induction ts with
  | nil => intro n; rfl
  | cons t rest ih =>
    intro n
    unfold applyLocalOfferTs
    by_cases h : t.stopped = true ∨ t.removed = true
    · rw [if_pos h]
      simp [ih]
    · rw [if_neg h]
      rcases hl : t.level with _ | l
      · simp [ih]
      · simp [ih]

theorem restoreFromOld_cons {t0 : Transceiver} (old : List Transceiver)
    (x : Transceiver) (h : t0.tid ≠ x.tid) :
    restoreFromOld (t0 :: old) x = restoreFromOld old x := by
  unfold restoreFromOld
  rw [List.find?_cons_of_neg]
  simp [h]

theorem restoreFromOld_head (t : Transceiver) (rest : List Transceiver)
    (x : Transceiver) (hx : x.tid = t.tid) :
    restoreFromOld (t :: rest) x =
      { x with level := t.level, associated := t.associated,
               bundleLevel := t.bundleLevel, transport := t.transport } := by
  unfold restoreFromOld
  rw [List.find?_cons_of_pos _ (by simp [hx])]

/-- Rolling back a local offer restores every transceiver exactly: levels
and associations return to their pre-offer values and track content is
untouched. -/
theorem rollback_localOffer_inverse : ∀ (ts : List Transceiver) (n : Nat),
    (ts.map Transceiver.tid).Nodup →
    rollbackTransceivers ts (applyLocalOfferTs ts n) = ts := by
  intro ts
  induction ts with
  | nil => intro n _; rfl
  | cons t rest ih =>
    intro n hnd
    have hnin : t.tid ∉ rest.map Transceiver.tid := (List.nodup_cons.mp hnd).1
    have hnd2 : (rest.map Transceiver.tid).Nodup := (List.nodup_cons.mp hnd).2
    have tailEq : ∀ (m : Nat),
        (applyLocalOfferTs rest m).map (restoreFromOld (t :: rest)) = rest := by
      intro m
      have hmem : ∀ x ∈ applyLocalOfferTs rest m,
          x.tid ∈ rest.map Transceiver.tid := by
        intro x hx
        rw [← applyLocalOfferTs_tids rest m]
        exact List.mem_map_of_mem _ hx
      have hstep : (applyLocalOfferTs rest m).map (restoreFromOld (t :: rest)) =
          (applyLocalOfferTs rest m).map (restoreFromOld rest) := by
        apply List.map_congr_left
        intro x hx
        exact restoreFromOld_cons rest x (fun he => hnin (he ▸ hmem x hx))
      rw [hstep]
      exact ih m hnd2
    show (applyLocalOfferTs (t :: rest) n).map (restoreFromOld (t :: rest)) = t :: rest
    unfold applyLocalOfferTs
    by_cases hSR : t.stopped = true ∨ t.removed = true
    · rw [if_pos hSR, List.map_cons, restoreFromOld_head t rest t rfl, tailEq]
    · rw [if_neg hSR]
      rcases hl : t.level with _ | l
      · rw [List.map_cons,
          restoreFromOld_head t rest { t with level := some n, associated := true } rfl,
          tailEq]
      · rw [List.map_cons,
          restoreFromOld_head t rest { t with level := some l, associated := true } rfl,
          tailEq, ← hl]

theorem restoreFromOld_not_found (old : List Transceiver) (t : Transceiver)
    (h : old.find? (fun o => o.tid = t.tid) = none) :
    restoreFromOld old t = rollbackNew t := by
  unfold restoreFromOld
  rw [h]

theorem restoreFromOld_found (old : List Transceiver) (o t : Transceiver)
    (h : old.find? (fun x => x.tid = t.tid) = some o) :
    (restoreFromOld old t).level = o.level ∧
    (restoreFromOld old t).associated = o.associated ∧
    (restoreFromOld old t).sendTrack = t.sendTrack ∧
    (restoreFromOld old t).recvTrack = t.recvTrack := by
  unfold restoreFromOld
  rw [h]
  exact ⟨rfl, rfl, rfl, rfl⟩

/-- Claim C4: after SetRemoteDescription(rollback) every transceiver
synthesized purely by applying the remote offer and untouched afterward is
marked removed (the list length never shrinks: no physical deletion), a
transceiver the application touched via AddTrack is preserved unassociated
and keeps addTrackMagic even with a nulled send track, a pre-offer
transceiver gets its level/association back with its track content
untouched, and a local rollback restores the pre-offer levels and
associations exactly. -/
theorem c4_rollback (s : Session) (old : List Transceiver)
    (hst : s.state = SigState.haveRemoteOffer)
    (hold : s.oldTransceivers = some old) :
    (setRemoteRollback s).2 = none ∧
    (setRemoteRollback s).1.transceivers.length = s.transceivers.length ∧
    (∀ t ∈ s.transceivers,
      restoreFromOld old t ∈ (setRemoteRollback s).1.transceivers) ∧
    (∀ t : Transceiver, old.find? (fun o => o.tid = t.tid) = none →
      t.onlyExistsBecauseOfSetRemote = true → t.addTrackMagic = false →
      (restoreFromOld old t).removed = true ∧
      (restoreFromOld old t).associated = false ∧
      (restoreFromOld old t).level = none) ∧
    (∀ t : Transceiver, old.find? (fun o => o.tid = t.tid) = none →
      t.addTrackMagic = true → t.removed = false →
      (restoreFromOld old t).removed = false ∧
      (restoreFromOld old t).associated = false ∧
      (restoreFromOld old t).level = none ∧
      (restoreFromOld old t).addTrackMagic = true ∧
      (restoreFromOld old t).sendTrack = t.sendTrack) ∧
    (∀ (o t : Transceiver), old.find? (fun x => x.tid = t.tid) = some o →
      (restoreFromOld old t).level = o.level ∧
      (restoreFromOld old t).associated = o.associated ∧
      (restoreFromOld old t).sendTrack = t.sendTrack ∧
      (restoreFromOld old t).recvTrack = t.recvTrack) ∧
    (∀ (ts : List Transceiver) (n : Nat), (ts.map Transceiver.tid).Nodup →
      rollbackTransceivers ts (applyLocalOfferTs ts n) = ts) := by
  have hres : setRemoteRollback s =
      ({ s with state := SigState.stable
                transceivers := rollbackTransceivers old s.transceivers
                remotePending := none
                oldTransceivers := none }, none) := by
    unfold setRemoteRollback
    rw [if_pos hst, hold]
    rfl
  refine ⟨by rw [hres], ?_, ?_, ?_, ?_, ?_, ?_⟩
  · rw [hres]
    exact List.length_map _ _
  · intro t ht
    rw [hres]
    exact List.mem_map_of_mem _ ht
  · intro t hfind h1 h2
    rw [restoreFromOld_not_found old t hfind]
    unfold rollbackNew
    rw [if_pos ⟨h1, h2⟩]
    exact ⟨rfl, rfl, rfl⟩
  · intro t hfind h1 h2
    rw [restoreFromOld_not_found old t hfind]
    unfold rollbackNew
    rw [if_neg (by simp [h1])]
    exact ⟨h2, rfl, rfl, h1, rfl⟩
  · intro o t hfind
    exact restoreFromOld_found old o t hfind
  · exact fun ts n h => rollback_localOffer_inverse ts n h

/-- A transceiver synthesized by applying a remote offer and untouched by
the application afterward. -/
def c4Synth : Transceiver :=
  { wTransceiver with tid := 10, level := some 0, associated := true,
                      addTrackMagic := false, onlyExistsBecauseOfSetRemote := true,
                      sendTrack := { streamIds := [], active := false } }

/-- A transceiver AddTrack touched in the interim whose send track was
nulled afterward. -/
def c4Touched : Transceiver :=
  { wTransceiver with tid := 11, level := some 1, associated := true,
                      addTrackMagic := true, onlyExistsBecauseOfSetRemote := false,
                      sendTrack := { streamIds := [], active := false } }

/-- A session in have-remote-offer whose pre-offer snapshot is empty and
which now holds the two transceivers above. -/
def c4Session : Session :=
  { wSession with state := SigState.haveRemoteOffer
                  transceivers := [c4Synth, c4Touched]
                  oldTransceivers := some []
                  remotePending := some wOfferSdp }

/-- Witness for C4 at a concrete ComplicatedRemoteRollback-style scenario:
remote rollback succeeds, keeps both transceivers in the list, marks only
the untouched synthesized one removed, keeps the AddTrack-touched one with
its magic, and the local-offer pass followed by rollback is the
identity. -/
theorem c4_witness :
    (setRemoteRollback c4Session).2 = none ∧
    (setRemoteRollback c4Session).1.transceivers.length = 2 ∧
    (restoreFromOld [] c4Synth).removed = true ∧
    ((restoreFromOld [] c4Touched).removed = false ∧
      (restoreFromOld [] c4Touched).addTrackMagic = true) ∧
    rollbackTransceivers [wTransceiver] (applyLocalOfferTs [wTransceiver] 0) =
      [wTransceiver] := by
  have h := c4_rollback c4Session [] rfl rfl
  exact ⟨h.1, h.2.1, (h.2.2.2.1 c4Synth rfl rfl rfl).1,
    ⟨(h.2.2.2.2.1 c4Touched rfl rfl rfl).1,
     (h.2.2.2.2.1 c4Touched rfl rfl rfl).2.2.2.1⟩,
    h.2.2.2.2.2.2 [wTransceiver] 0 (by decide)⟩

/-! ### C5: DTLS role negotiation -/

/-- One m-section with an invalid a=setup makes the whole description fail
with InvalidAccessError. -/
theorem validateSetupSdp_some {t : SdpType} {sdp : Sdp} {m : MSection}
    (hm : m ∈ sdp.msections)
    (hbad : validateSetup t m = some JsepError.InvalidAccessError) :
    validateSetupSdp t sdp = some JsepError.InvalidAccessError := by
  rcases hv : validateSetupSdp t sdp with _ | e
  · unfold validateSetupSdp at hv
    rw [List.findSome?_eq_none_iff] at hv
    rw [hv m hm] at hbad
    cases hbad
  · unfold validateSetupSdp at hv
    rcases List.exists_of_findSome?_eq_some hv with ⟨x, _, hpe⟩
    rcases validateSetup_eq_none_or t x with h0 | h1
    · rw [h0] at hpe; cases hpe
    · rw [h1] at hpe
      rw [Option.some.inj hpe]

/-- Claim C5: the offer states a=setup:actpass and the answer a=setup:active
against actpass; a remote answer stating actpass, or any remote description
stating holdconn, is rejected with InvalidAccessError leaving the session
unchanged; a remote offer without a=setup is rejected; a remote answer
without a=setup is accepted with the role defaulting to active, so the
offerer becomes the DTLS server and the answerer the DTLS client. -/
theorem c5_dtls_setup (s : Session) (sdp : Sdp) :
    (∀ (negExt : List (Nat × String)) (t : Transceiver),
      t.stopping = false → t.stopped = false →
      (msectionForTransceiver negExt t).setup = some SetupRole.actpass) ∧
    (∀ m : MSection, m.setup = some SetupRole.actpass → ¬ m.Disabled →
      (answerMSection m).setup = some SetupRole.active) ∧
    (s.state = SigState.haveLocalOffer →
      (∃ m ∈ sdp.msections,
        m.setup = some SetupRole.actpass ∨ m.setup = some SetupRole.holdconn) →
      setRemoteDescription SdpType.answer sdp s =
        (s, some JsepError.InvalidAccessError)) ∧
    (s.state = SigState.stable →
      (∃ m ∈ sdp.msections, m.setup = none ∨ m.setup = some SetupRole.holdconn) →
      setRemoteDescription SdpType.offer sdp s =
        (s, some JsepError.InvalidAccessError)) ∧
    (∀ m : MSection, m.setup = none → validateSetup SdpType.answer m = none) ∧
    (offererDtlsRole none = some DtlsRole.server ∧
      answererDtlsRole none = some DtlsRole.client) ∧
    (∀ (t : Transceiver) (lev : Nat) (m : MSection),
      t.level = some lev → msectionAt sdp lev = some m → ¬ m.Disabled →
      m.setup = none →
      (finalizeAnswerTransceiver sdp t).transport.dtlsRole = some DtlsRole.server) := by
  refine ⟨?_, ?_, ?_, ?_, ?_, ⟨rfl, rfl⟩, ?_⟩
  · intro negExt t h1 h2
    unfold msectionForTransceiver
    rw [if_neg (by simp [h1, h2])]
  · intro m hms hnd
    unfold answerMSection
    rw [if_neg hnd]
    rw [hms]
    rfl
  · intro hst ⟨m, hm, hbad⟩
    have hsetup : validateSetupSdp SdpType.answer sdp =
        some JsepError.InvalidAccessError := by
      refine validateSetupSdp_some hm ?_
      rcases hbad with h | h <;> simp [validateSetup, h]
    simp [setRemoteDescription, hst, hsetup]
  · intro hst ⟨m, hm, hbad⟩
    have hsetup : validateSetupSdp SdpType.offer sdp =
        some JsepError.InvalidAccessError := by
      refine validateSetupSdp_some hm ?_
      rcases hbad with h | h <;> simp [validateSetup, h]
    simp [setRemoteDescription, hst, hsetup]
  · intro m hms
    simp [validateSetup, hms]
  · intro t lev m hlev hsec hnd hsetup
    unfold finalizeAnswerTransceiver
    simp only [hlev, hsec]
    rw [if_neg hnd, hsetup]
    rfl

/-- An answer whose only m-section omits a=setup. -/
def c5NoSetupAnswer : Sdp :=
  { msections :=
      [{ mediaType := MediaType.audio
         port := 9
         direction := Direction.sendrecv
         setup := none
         extmaps := []
         formats := ["109"]
         rtpmaps := [("109", "opus")]
         hasMid := true }] }

/-- An answer whose only m-section states a=setup:actpass. -/
def c5ActpassAnswer : Sdp :=
  { msections :=
      [{ mediaType := MediaType.audio
         port := 9
         direction := Direction.sendrecv
         setup := some SetupRole.actpass
         extmaps := []
         formats := ["109"]
         rtpmaps := [("109", "opus")]
         hasMid := true }] }

/-- The offerer's session in have-local-offer with its transceiver at
level 0. -/
def c5Session : Session :=
  { wSession with state := SigState.haveLocalOffer
                  transceivers := [{ wTransceiver with level := some 0, associated := true }]
                  localPending := some wOfferSdp }

/-- Witness for C5: the offer m-section of a live transceiver states
actpass; the answer against actpass states active; a remote answer stating
actpass is rejected unchanged (AudioCallAnswererUsesActpass); an offer
without a=setup is rejected (AudioCallOffererNoSetup); an answer without
a=setup validates and yields DTLS server for the offerer
(AudioCallAnswerNoSetup). -/
theorem c5_witness :
    (msectionForTransceiver [] wTransceiver).setup = some SetupRole.actpass ∧
    (answerMSection (msectionForTransceiver [] wTransceiver)).setup =
      some SetupRole.active ∧
    setRemoteDescription SdpType.answer c5ActpassAnswer c5Session =
      (c5Session, some JsepError.InvalidAccessError) ∧
    setRemoteDescription SdpType.offer c5NoSetupAnswer wSession =
      (wSession, some JsepError.InvalidAccessError) ∧
    (finalizeAnswerTransceiver c5NoSetupAnswer
        { wTransceiver with level := some 0 }).transport.dtlsRole =
      some DtlsRole.server := by
  have h := c5_dtls_setup c5Session c5NoSetupAnswer
  have h2 := c5_dtls_setup wSession c5NoSetupAnswer
  have h3 := c5_dtls_setup c5Session c5ActpassAnswer
  refine ⟨h.1 [] wTransceiver rfl rfl, ?_, ?_, ?_, ?_⟩
  · exact h.2.1 (msectionForTransceiver [] wTransceiver)
      (h.1 [] wTransceiver rfl rfl) (by decide)
  · exact h3.2.2.1 rfl ⟨c5ActpassAnswer.msections.get ⟨0, by decide⟩, by decide,
      Or.inl (by decide)⟩
  · exact h2.2.2.2.1 rfl ⟨c5NoSetupAnswer.msections.get ⟨0, by decide⟩, by decide,
      Or.inl (by decide)⟩
  · exact h.2.2.2.2.2.2 { wTransceiver with level := some 0 } 0
      (c5NoSetupAnswer.msections.get ⟨0, by decide⟩) rfl (by decide) (by decide)
      (by decide)

/-! ### C6: payload-type asymmetry -/

/-- The opus codec configuration of the TestAnswerPTAsymmetry offerer:
its own chosen number is 109. -/
def c6OffererConfig : List CodecConfig :=
  [{ name := "opus", defaultPt := 109, enabled := true }]

/-- Counterexample to C6 as stated, at the TestAnswerPTAsymmetry scenario
(offerer chose 109 for opus, the peer's answer named 105): the receive
codec list does keep 109, but the reoffer advertises opus under the
peer's 105 and not under the receive-side 109 — the test asserts the
reoffer contains a=rtpmap:105 opus and not a=rtpmap:109 opus, so a
reoffer does not preserve this side's own number. -/
theorem c6_counterexample :
    (applyAnswerToOffererCodecs [("opus", 109)] [("opus", 105)]).2 =
      [("opus", 109)] ∧
    reofferPtsFromConfig (updateCodecConfigFromAnswer c6OffererConfig
      [("opus", 105)]) = [("opus", 105)] ∧
    ("opus", 109) ∉ reofferPtsFromConfig (updateCodecConfigFromAnswer
      c6OffererConfig [("opus", 105)]) := by
  refine ⟨rfl, rfl, by decide⟩

/-- Claim C6 (amended): after applying a remote answer, the number in this
side's send codec list for a codec is the number the peer advertised for
it, while the number in the receive codec list stays this side's own
chosen number, and the two lists are tracked independently; a reoffer,
however, does not re-advertise the receive-side number: applying the
answer updates the working codec configuration, so a reoffer advertises a
codec the answer renamed under the peer's number, and a codec the answer
did not name under its unchanged number; an answerer adopts the offered
numbers symmetrically. -/
theorem c6_pt_asymmetry (ownRecv answered : List (String × Nat)) :
    (applyAnswerToOffererCodecs ownRecv answered).2 = ownRecv ∧
    (∀ e ∈ (applyAnswerToOffererCodecs ownRecv answered).1,
      negLookup answered e.1 = some e.2) ∧
    (∀ (n : String) (p q : Nat),
      negLookup ownRecv n = some p → negLookup answered n = some q →
      (n, q) ∈ (applyAnswerToOffererCodecs ownRecv answered).1 ∧
        (n, p) ∈ (applyAnswerToOffererCodecs ownRecv answered).2) ∧
    (∀ (own : List CodecConfig) (c : CodecConfig) (q : Nat),
      c ∈ own → c.enabled = true → negLookup answered c.name = some q →
      (c.name, q) ∈ reofferPtsFromConfig (updateCodecConfigFromAnswer own answered)) ∧
    (∀ (own : List CodecConfig) (c : CodecConfig),
      c ∈ own → c.enabled = true → negLookup answered c.name = none →
      (c.name, c.defaultPt) ∈
        reofferPtsFromConfig (updateCodecConfigFromAnswer own answered)) ∧
    (∀ (own : List CodecConfig) (offered : List (String × Nat)),
      (negotiateAnswererCodecs own offered).1 =
        (negotiateAnswererCodecs own offered).2) := by
  refine ⟨rfl, ?_, ?_, ?_, ?_, fun own offered => rfl⟩
  · intro e he
    rcases List.mem_filterMap.mp he with ⟨r, _, hr⟩
    rcases Option.map_eq_some'.mp hr with ⟨q, hq, hpair⟩
    rw [← hpair]
    exact hq
  · intro n p q hp hq
    unfold negLookup at hp
    rcases Option.map_eq_some'.mp hp with ⟨b0, hfind, hb2⟩
    have hb1 : b0.1 = n := by
      have := List.find?_some hfind
      exact of_decide_eq_true this
    have hbmem : b0 ∈ ownRecv := List.mem_of_find?_eq_some hfind
    constructor
    · refine List.mem_filterMap.mpr ⟨b0, hbmem, ?_⟩
      rw [hb1, hq]
      rfl
    · have : b0 = (n, p) := Prod.ext hb1 hb2
      exact this ▸ hbmem
  · intro own c q hc hen hq
    unfold reofferPtsFromConfig updateCodecConfigFromAnswer
    refine List.mem_map.mpr ⟨updateCodec answered c, ?_, ?_⟩
    · refine List.mem_filter.mpr ⟨List.mem_map_of_mem _ hc, ?_⟩
      unfold updateCodec
      rw [hq]
      exact hen
    · unfold updateCodec
      rw [hq]
  · intro own c hc hen hq
    unfold reofferPtsFromConfig updateCodecConfigFromAnswer
    refine List.mem_map.mpr ⟨updateCodec answered c, ?_, ?_⟩
    · refine List.mem_filter.mpr ⟨List.mem_map_of_mem _ hc, ?_⟩
      unfold updateCodec
      rw [hq]
      exact hen
    · unfold updateCodec
      rw [hq]

/-- Witness for the amended C6 at the TestAnswerPTAsymmetry scenario: the
offerer chose 109 for opus, the peer answered 105 — the send list carries
105, the receive list keeps 109, the reoffer advertises opus under 105,
and a codec the answer did not name (G722 at 9) keeps its number in the
reoffer. -/
theorem c6_witness :
    (applyAnswerToOffererCodecs [("opus", 109)] [("opus", 105)]).2 =
      [("opus", 109)] ∧
    ("opus", 105) ∈ (applyAnswerToOffererCodecs [("opus", 109)] [("opus", 105)]).1 ∧
    ("opus", 109) ∈ (applyAnswerToOffererCodecs [("opus", 109)] [("opus", 105)]).2 ∧
    ("opus", 105) ∈ reofferPtsFromConfig (updateCodecConfigFromAnswer
      c6OffererConfig [("opus", 105)]) ∧
    ("G722", 9) ∈ reofferPtsFromConfig (updateCodecConfigFromAnswer
      [{ name := "G722", defaultPt := 9, enabled := true }] [("opus", 105)]) := by
  have h := c6_pt_asymmetry [("opus", 109)] [("opus", 105)]
  have hm := h.2.2.1 "opus" 109 105 (by decide) (by decide)
  refine ⟨h.1, hm.1, hm.2, ?_, ?_⟩
  · exact h.2.2.2.1 c6OffererConfig
      { name := "opus", defaultPt := 109, enabled := true } 105
      (by decide) (by decide) (by decide)
  · exact h.2.2.2.2.1 [{ name := "G722", defaultPt := 9, enabled := true }]
      { name := "G722", defaultPt := 9, enabled := true }
      (by decide) (by decide) (by decide)

/-! ### C7: H.264 level arithmetic -/

/-- Every comparison key is the level-1b key or levelIdc * 16 with
levelIdc different from 9. -/
theorem getSane_range (a : Nat) :
    GetSaneH264Level a = saneLevel1b ∨
    ∃ l, l < 256 ∧ l ≠ 9 ∧ GetSaneH264Level a = l * 16 := by
  unfold GetSaneH264Level
  by_cases h9 : a % 256 = 9
  · rw [if_pos h9]
    exact Or.inl rfl
  · rw [if_neg h9]
    by_cases h1b : (a / 65536 % 256 = 66 ∨ a / 65536 % 256 = 77 ∨
        a / 65536 % 256 = 88) ∧ a / 256 % 256 / 16 % 2 = 1 ∧ a % 256 = 11
    · rw [if_pos h1b]
      exact Or.inl rfl
    · rw [if_neg h1b]
      exact Or.inr ⟨a % 256, Nat.mod_lt _ (by omega), h9, rfl⟩

/-- Writing a comparison key into a profile-level-id and reading it back
returns the same key. -/
theorem getSane_setSane (v plid : Nat)
    (hv : v = saneLevel1b ∨ ∃ l, l < 256 ∧ l ≠ 9 ∧ v = l * 16) :
    GetSaneH264Level (SetSaneH264Level v plid) = v := by
  rcases hv with rfl | ⟨l, hl, hl9, rfl⟩
  · unfold SetSaneH264Level
    rw [if_pos rfl]
    by_cases hp : plid / 65536 % 256 = 66 ∨ plid / 65536 % 256 = 77 ∨
        plid / 65536 % 256 = 88
    · rw [if_pos hp]
      unfold GetSaneH264Level setCs3 clearCs3
      rw [if_neg (by omega), if_pos (by omega)]
    · rw [if_neg hp]
      unfold GetSaneH264Level
      rw [if_pos (by omega)]
  · unfold SetSaneH264Level saneLevel1b
    rw [if_neg (by omega)]
    by_cases hp : plid / 65536 % 256 = 66 ∨ plid / 65536 % 256 = 77 ∨
        plid / 65536 % 256 = 88
    · rw [if_pos hp]
      unfold GetSaneH264Level clearCs3
      rw [if_neg (by omega), if_neg (by omega)]
      omega
    · rw [if_neg hp]
      unfold GetSaneH264Level
      rw [if_neg (by omega), if_neg (by omega)]
      omega

/-- The minimum of two comparison keys is itself a comparison key. -/
theorem min_getSane_range (a b : Nat) :
    min (GetSaneH264Level a) (GetSaneH264Level b) = saneLevel1b ∨
    ∃ l, l < 256 ∧ l ≠ 9 ∧
      min (GetSaneH264Level a) (GetSaneH264Level b) = l * 16 := by
  rcases le_total (GetSaneH264Level a) (GetSaneH264Level b) with h | h
  · rw [min_eq_left h]
    exact getSane_range a
  · rw [min_eq_right h]
    exact getSane_range b

/-- Counterexample to C7 as stated, at the configuration of
TestH264Negotiation (local level 0x0B, remote level 0x1F, level asymmetry
allowed as the engine offers by default): negotiation succeeds with the
send direction at the remote's level 0x42E01F — not at min(local, remote)
— and with asymmetry disallowed differing levels negotiate to the minimum
on both directions instead of the m-section being rejected. -/
theorem c7_counterexample :
    h264NegotiateSendRecv true 0x42E00B 0x42E01F = (0x42E01F, 0x42E00B) ∧
    GetSaneH264Level 0x42E01F ≠
      min (GetSaneH264Level 0x42E00B) (GetSaneH264Level 0x42E01F) ∧
    h264NegotiateSendRecv false 0x42E01F 0x42E00B = (0x42E00B, 0x42E00B) := by
  refine ⟨?_, by decide, ?_⟩ <;> rfl

/-- Claim C7 (amended): the H.264 level comparison key is a total order in
which level 1b sorts strictly between level 1.0 and level 1.1 (in both of
its encodings); when either side disallows level asymmetry both directions
negotiate the same profile-level-id whose level is exactly
min(local, remote) under that order; with asymmetry allowed the receive
direction keeps this side's own profile-level-id and the send direction
runs at exactly the remote's level. -/
theorem c7_h264_levels :
    (∀ a b : Nat, GetSaneH264Level a < GetSaneH264Level b ∨
      GetSaneH264Level a = GetSaneH264Level b ∨
      GetSaneH264Level b < GetSaneH264Level a) ∧
    (GetSaneH264Level 0x420D0A < GetSaneH264Level 0x421D0B ∧
      GetSaneH264Level 0x421D0B < GetSaneH264Level 0x420D0B) ∧
    (GetSaneH264Level 0x64000A < GetSaneH264Level 0x640009 ∧
      GetSaneH264Level 0x640009 < GetSaneH264Level 0x64000B) ∧
    (∀ loc rem : Nat,
      (h264NegotiateSendRecv false loc rem).1 =
        (h264NegotiateSendRecv false loc rem).2 ∧
      GetSaneH264Level (h264NegotiateSendRecv false loc rem).1 =
        min (GetSaneH264Level loc) (GetSaneH264Level rem)) ∧
    (∀ loc rem : Nat,
      (h264NegotiateSendRecv true loc rem).2 = loc ∧
      GetSaneH264Level (h264NegotiateSendRecv true loc rem).1 =
        GetSaneH264Level rem) := by
  refine ⟨fun a b => Nat.lt_trichotomy _ _, by decide, by decide, ?_, ?_⟩
  · intro loc rem
    refine ⟨rfl, ?_⟩
    exact getSane_setSane _ loc (min_getSane_range loc rem)
  · intro loc rem
    refine ⟨rfl, ?_⟩
    exact getSane_setSane _ loc (getSane_range rem)

/-! ### C8: bundle transport handoff -/

/-- Claim C8: after a renegotiation in which the bundle-tag transceiver was
stopped, every surviving bundled transceiver shares the one bundle
transport and points its bundle level at the first surviving transceiver
(the new tag), while every stopped transceiver's transport is disabled
(components 0) and it loses its bundle level; no transceiver disappears. -/
theorem c8_bundle_handoff (bt : Transport) (ts : List Transceiver)
    (nt : Transceiver)
    (hfind : ts.find? (fun t => !t.stopped && !t.removed) = some nt) :
    (∀ t ∈ rebundle bt ts, t.stopped = false →
      t.transport = bt ∧ t.bundleLevel = nt.level) ∧
    (∀ t ∈ rebundle bt ts, t.stopped = true →
      t.transport.components = 0 ∧ t.bundleLevel = none) ∧
    (rebundle bt ts).length = ts.length := by
  have hre : rebundle bt ts =
      ts.map (fun t =>
        if t.stopped then
          { t with transport := disableTransport t.transport, bundleLevel := none }
        else
          { t with transport := bt, bundleLevel := nt.level }) := by
    unfold rebundle
    rw [hfind]
  rw [hre]
  refine ⟨?_, ?_, List.length_map _ _⟩
  · intro t ht hstop
    rcases List.mem_map.mp ht with ⟨x, _, hfx⟩
    by_cases hxs : x.stopped = true
    · rw [if_pos hxs] at hfx
      rw [← hfx] at hstop
      simp only [] at hstop
      simp [hxs] at hstop
    · rw [if_neg hxs] at hfx
      rw [← hfx]
      exact ⟨rfl, rfl⟩
  · intro t ht hstop
    rcases List.mem_map.mp ht with ⟨x, _, hfx⟩
    by_cases hxs : x.stopped = true
    · rw [if_pos hxs] at hfx
      rw [← hfx]
      exact ⟨rfl, rfl⟩
    · rw [if_neg hxs] at hfx
      rw [← hfx] at hstop
      simp [hxs] at hstop

/-- The shared bundle transport of the C8 scenario. -/
def c8Bt : Transport := { transportId := 100, components := 1, dtlsRole := none }

/-- The stopped former bundle tag at level 0. -/
def c8Stopped : Transceiver :=
  { wTransceiver with tid := 20, level := some 0, stopped := true, stopping := true,
                      bundleLevel := some 0 }

/-- The surviving transceiver at level 1: the new bundle tag. -/
def c8NewTag : Transceiver :=
  { wTransceiver with tid := 21, level := some 1, bundleLevel := some 0,
                      transport := { transportId := 101, components := 1, dtlsRole := none } }

/-- A further surviving bundled transceiver at level 2. -/
def c8Other : Transceiver :=
  { wTransceiver with tid := 22, level := some 2, bundleLevel := some 0 }

/-- Witness for C8 at a three-transceiver bundle whose tag (level 0) was
stopped: survivors share the bundle transport and point at level 1, the
stopped one is disabled. -/
theorem c8_witness :
    (∀ t ∈ rebundle c8Bt [c8Stopped, c8NewTag, c8Other], t.stopped = false →
      t.transport = c8Bt ∧ t.bundleLevel = c8NewTag.level) ∧
    (∀ t ∈ rebundle c8Bt [c8Stopped, c8NewTag, c8Other], t.stopped = true →
      t.transport.components = 0 ∧ t.bundleLevel = none) ∧
    (rebundle c8Bt [c8Stopped, c8NewTag, c8Other]).length = 3 :=
  c8_bundle_handoff c8Bt [c8Stopped, c8NewTag, c8Other] c8NewTag (by decide)

/-! ### C9: renegotiation after stopping a transceiver -/

/-- The transceivers an assocLevel pass produces keep level and liveness. -/
theorem assocLevel_mem (lev : Nat) {ts : List Transceiver} {t : Transceiver}
    (h : t ∈ ts) :
    ∃ u ∈ assocLevel lev ts, u.level = t.level ∧ u.removed = t.removed := by
  unfold assocLevel
  refine ⟨_, List.mem_map_of_mem _ h, ?_, ?_⟩ <;> split <;> rfl

/-- Transceiver matching of a remote offer whose every m-section already
has a transceiver at its level does not change the number of
transceivers. -/
theorem applyRemoteOfferLevels_length :
    ∀ (pairs : List (Nat × MSection)) (ts : List Transceiver) (ntid : Nat),
      (∀ p ∈ pairs, hasLevelMatch ts p.1) →
      (pairs.foldl (fun acc p => applyRemoteOfferLevel p.1 p.2 acc) (ts, ntid)).1.length
        = ts.length := by
  intro pairs
  induction pairs with
  | nil => intro ts ntid _; rfl
  | cons p rest ih =>
    intro ts ntid h
    have hp := h p (List.mem_cons_self _ _)
    rw [List.foldl_cons]
    have hstep : applyRemoteOfferLevel p.1 p.2 (ts, ntid) =
        (assocLevel p.1 ts, ntid) := by
      unfold applyRemoteOfferLevel
      rw [if_pos hp]
    rw [hstep]
    have hlen : (assocLevel p.1 ts).length = ts.length := List.length_map _ _
    rw [← hlen]
    apply ih
    intro q hq
    rcases h q (List.mem_cons_of_mem _ hq) with ⟨t, htm, hlev, hrem⟩
    rcases assocLevel_mem p.1 htm with ⟨u, humem, hu1, hu2⟩
    exact ⟨u, humem, by rw [hu1, hlev], by rw [hu2, hrem]⟩

/-- Claim C9: renegotiating after stopping a (non-bundle-tag) transceiver
disables exactly that m-section in the offer — port 0, a=inactive, exactly
3 attributes (mid, direction, one reserved-format codec line) — the answer
mirrors it disabled with the same 3 attributes while every other m-section
stays enabled, and the transceiver count on both sides is unchanged by the
round. -/
theorem c9_stopped_msection (s : Session) :
    (∀ (negExt : List (Nat × String)) (t : Transceiver),
      t.stopping = true ∨ t.stopped = true →
      (msectionForTransceiver negExt t).Disabled ∧
      (msectionForTransceiver negExt t).attrCount = 3 ∧
      (msectionForTransceiver negExt t).formats.length = 1) ∧
    (∀ (negExt : List (Nat × String)) (t : Transceiver),
      t.stopping = false → t.stopped = false →
      ¬ (msectionForTransceiver negExt t).Disabled) ∧
    (∀ sdp : Sdp, (createAnswerSdp sdp).msections.length = sdp.msections.length) ∧
    (∀ m : MSection, m.Disabled →
      (answerMSection m).Disabled ∧ (answerMSection m).attrCount = 3) ∧
    (∀ m : MSection, ¬ m.Disabled → ¬ (answerMSection m).Disabled) ∧
    (∀ sdp : Sdp, (∀ p ∈ sdp.msections.enum, hasLevelMatch s.transceivers p.1) →
      (setRemoteOfferApply sdp s).transceivers.length = s.transceivers.length) ∧
    (∀ sdp : Sdp,
      (applyRemoteAnswerFinalize sdp s).transceivers.length =
        s.transceivers.length) := by
  refine ⟨?_, ?_, ?_, ?_, ?_, ?_, ?_⟩
  · intro negExt t h
    unfold msectionForTransceiver
    rw [if_pos h]
    exact ⟨⟨rfl, rfl⟩, rfl, rfl⟩
  · intro negExt t h1 h2
    unfold msectionForTransceiver
    rw [if_neg (by simp [h1, h2])]
    intro hd
    cases hd.1
  · intro sdp
    exact List.length_map _ _
  · intro m hd
    unfold answerMSection
    rw [if_pos hd]
    exact ⟨⟨rfl, rfl⟩, rfl⟩
  · intro m hd
    unfold answerMSection
    rw [if_neg hd]
    intro hcon
    exact hd ⟨hcon.1, hcon.2⟩
  · intro sdp h
    unfold setRemoteOfferApply
    have := applyRemoteOfferLevels_length sdp.msections.enum s.transceivers s.nextTid h
    unfold applyRemoteOfferTransceivers
    rw [List.length_map]
    exact this
  · intro sdp
    exact List.length_map _ _

/-- A stopping transceiver of the C9 scenario. -/
def c9Stopping : Transceiver :=
  { wTransceiver with tid := 30, level := some 0, associated := true,
                      stopping := true }

/-- A session holding only that transceiver, at level 0. -/
def c9Session : Session :=
  { wSession with transceivers := [c9Stopping] }

/-- Witness for C9: the stopping transceiver's offer m-section is disabled
with exactly 3 attributes, the mirrored answer m-section likewise, a live
transceiver's m-section is not disabled, and applying the one-section
reoffer to a session with a level-0 transceiver leaves the transceiver
count at 1. -/
theorem c9_witness :
    ((msectionForTransceiver [] c9Stopping).Disabled ∧
      (msectionForTransceiver [] c9Stopping).attrCount = 3 ∧
      (msectionForTransceiver [] c9Stopping).formats.length = 1) ∧
    ((answerMSection (msectionForTransceiver [] c9Stopping)).Disabled ∧
      (answerMSection (msectionForTransceiver [] c9Stopping)).attrCount = 3) ∧
    (¬ (msectionForTransceiver [] wTransceiver).Disabled) ∧
    (setRemoteOfferApply wOfferSdp c9Session).transceivers.length = 1 := by
  have h := c9_stopped_msection c9Session
  refine ⟨h.1 [] c9Stopping (Or.inl rfl), ?_, h.2.1 [] wTransceiver rfl rfl, ?_⟩
  · exact h.2.2.2.1 (msectionForTransceiver [] c9Stopping)
      (h.1 [] c9Stopping (Or.inl rfl)).1
  · exact h.2.2.2.2.2.1 wOfferSdp (by decide)

/-! ### C10: stopping a transceiver between answer creation and answer
application -/

/-- Claim C10: a transceiver stopped by the application after the answer
was created and set locally, but before the remote answer is applied, is
unaffected by that round: applying the (all-sections-enabled) remote
answer succeeds, the transceiver is stopping but not stopped, its
transport keeps its single component, both tracks stay active, and the
session then reports that negotiation is needed. -/
theorem c10_stop_before_answer (s : Session) (sdp : Sdp) (t : Transceiver)
    (hst : s.state = SigState.haveLocalOffer)
    (ht : t ∈ s.transceivers)
    (hstopping : t.stopping = true) (hnstopped : t.stopped = false)
    (hrem : t.removed = false)
    (hcomp : t.transport.components = 1)
    (hsa : t.sendTrack.active = true) (hra : t.recvTrack.active = true)
    (hsetup : validateSetupSdp SdpType.answer sdp = none)
    (hext : checkExtmaps s.negotiatedExtmap sdp = none)
    (hans : answerChangedId (s.localPending.getD { msections := [] }) sdp = false)
    (hnd : ∀ m ∈ sdp.msections, ¬ m.Disabled) :
    (setRemoteDescription SdpType.answer sdp s).2 = none ∧
    finalizeAnswerTransceiver sdp t ∈
      (setRemoteDescription SdpType.answer sdp s).1.transceivers ∧
    (finalizeAnswerTransceiver sdp t).stopping = true ∧
    (finalizeAnswerTransceiver sdp t).stopped = false ∧
    (finalizeAnswerTransceiver sdp t).transport.components = 1 ∧
    (finalizeAnswerTransceiver sdp t).sendTrack.active = true ∧
    (finalizeAnswerTransceiver sdp t).recvTrack.active = true ∧
    checkNegotiationNeeded (setRemoteDescription SdpType.answer sdp s).1 = true := by
  have hres : setRemoteDescription SdpType.answer sdp s =
      (applyRemoteAnswerFinalize sdp s, none) := by
    unfold setRemoteDescription
    rw [if_pos hst, hsetup, hext]
    simp only [hans, Bool.false_eq_true, if_false]
  have hfin : (finalizeAnswerTransceiver sdp t).stopping = t.stopping ∧
      (finalizeAnswerTransceiver sdp t).stopped = t.stopped ∧
      (finalizeAnswerTransceiver sdp t).transport.components =
        t.transport.components ∧
      (finalizeAnswerTransceiver sdp t).sendTrack = t.sendTrack ∧
      (finalizeAnswerTransceiver sdp t).recvTrack = t.recvTrack ∧
      (finalizeAnswerTransceiver sdp t).removed = t.removed := by
    unfold finalizeAnswerTransceiver
    rcases hlev : t.level with _ | lev
    · exact ⟨rfl, rfl, rfl, rfl, rfl, rfl⟩
    · rcases hsec : msectionAt sdp lev with _ | m
      · simp [hsec]
      · have hm : m ∈ sdp.msections := by
          unfold msectionAt at hsec
          exact List.getElem?_mem hsec
        simp only [hsec]
        rw [if_neg (hnd m hm)]
        exact ⟨rfl, rfl, rfl, rfl, rfl, rfl⟩
  have hmem : finalizeAnswerTransceiver sdp t ∈
      (applyRemoteAnswerFinalize sdp s).transceivers :=
    List.mem_map_of_mem _ ht
  refine ⟨by rw [hres], by rw [hres]; exact hmem, ?_, ?_, ?_, ?_, ?_, ?_⟩
  · rw [hfin.1, hstopping]
  · rw [hfin.2.1, hnstopped]
  · rw [hfin.2.2.1, hcomp]
  · rw [hfin.2.2.2.1, hsa]
  · rw [hfin.2.2.2.2.1, hra]
  · rw [hres]
    unfold checkNegotiationNeeded
    have hstable : (applyRemoteAnswerFinalize sdp s).state = SigState.stable := rfl
    rw [hstable]
    simp only [decide_eq_true_eq, Bool.true_and, decide_True]
    rw [List.any_eq_true]
    refine ⟨finalizeAnswerTransceiver sdp t, hmem, ?_⟩
    rw [hfin.1, hfin.2.1, hfin.2.2.2.2.2, hstopping, hnstopped, hrem]
    rfl

/-- The remote answer of the C10 scenario: one enabled audio m-section
stating a=setup:active. -/
def c10Answer : Sdp :=
  { msections :=
      [{ mediaType := MediaType.audio
         port := 9
         direction := Direction.sendrecv
         setup := some SetupRole.active
         extmaps := []
         formats := ["109"]
         rtpmaps := [("109", "opus")]
         hasMid := true }] }

/-- The offerer's transceiver, stopped by the application after the answer
was created: stopping, not stopped, transport live. -/
def c10Transceiver : Transceiver :=
  { wTransceiver with tid := 40, level := some 0, associated := true,
                      stopping := true }

/-- The offerer's session awaiting the remote answer. -/
def c10Session : Session :=
  { wSession with state := SigState.haveLocalOffer
                  transceivers := [c10Transceiver]
                  localPending := some wOfferSdp }

/-- Witness for C10 at the JsStopsTransceiverBeforeAnswer scenario. -/
theorem c10_witness :
    (setRemoteDescription SdpType.answer c10Answer c10Session).2 = none ∧
    finalizeAnswerTransceiver c10Answer c10Transceiver ∈
      (setRemoteDescription SdpType.answer c10Answer c10Session).1.transceivers ∧
    (finalizeAnswerTransceiver c10Answer c10Transceiver).stopping = true ∧
    (finalizeAnswerTransceiver c10Answer c10Transceiver).stopped = false ∧
    (finalizeAnswerTransceiver c10Answer c10Transceiver).transport.components = 1 ∧
    (finalizeAnswerTransceiver c10Answer c10Transceiver).sendTrack.active = true ∧
    (finalizeAnswerTransceiver c10Answer c10Transceiver).recvTrack.active = true ∧
    checkNegotiationNeeded
      (setRemoteDescription SdpType.answer c10Answer c10Session).1 = true :=
  c10_stop_before_answer c10Session c10Answer c10Transceiver rfl
    (by decide) rfl rfl rfl rfl rfl rfl rfl rfl rfl (by decide)

end Jsep
